import Mathlib

/-!
Verification of the client-side session/auth-gated data-fetch pattern of the
employee_turn_over frontend (Next.js/React, TypeScript).

The stateful React components are shallowly embedded as pure functions: each
fetch handler becomes a function from its inputs (the current token store and
the outcome of the network call, supplied as an explicit `Except` value) to the
resulting local state.  Browser local storage holding the bearer token is the
`TokenStore` type.  Numeric JSON fields (rates, probabilities, satisfaction
levels) are modelled as rationals.
-/

namespace ETO

/-- The Token Store: browser local storage under the fixed key "token".
`none` means no token is stored. -/
abbrev TokenStore := Option String

/-! ## Session guards (claim C1)

Each protected page's mount behaviour, from the source:
the dashboard home (unnamed part_002, lines 34-44) and the admin page
(app/login/page.tsx second document, AdminPage) read the token on mount and
redirect to the landing route when it is absent, skipping the data fetch;
the analytics, employees and predictions pages (app/analytics/page.tsx,
app/employees/page.tsx, app/predictions/page.tsx) render their dashboards
directly, whose mount effects fetch unconditionally. -/

/-- What happens when a view is mounted: whether a client-side redirect to the
landing route is performed, and whether the view's initial data fetch is
issued. -/
structure MountResult where
  redirectedToLanding : Bool
  fetchIssued : Bool
deriving DecidableEq, Repr

/-- Dashboard home mount (part_002 lines 34-44): reads the token; if absent,
sets window.location to the landing route and returns before
fetchDashboardStats; if present, proceeds to fetch. -/
def dashboardMount (token : TokenStore) : MountResult :=
  match token with
  | none => { redirectedToLanding := true, fetchIssued := false }
  | some _ => { redirectedToLanding := false, fetchIssued := true }

/-- Admin page mount (AdminPage in app/login/page.tsx): reads the token; if
absent, router.push to the landing route and the guarded dashboard (with its
fetch) is never rendered; if present, AdminDashboard mounts and fetches the
system status. -/
def adminPageMount (token : TokenStore) : MountResult :=
  match token with
  | none => { redirectedToLanding := true, fetchIssued := false }
  | some _ => { redirectedToLanding := false, fetchIssued := true }

/-- Analytics page mount (app/analytics/page.tsx): no token check at all; the
AnalyticsDashboard mount effect calls fetchAnalyticsData unconditionally. -/
def analyticsPageMount (_token : TokenStore) : MountResult :=
  { redirectedToLanding := false, fetchIssued := true }

/-- Employees page mount (app/employees/page.tsx): no token check; the
EmployeesDashboard mount effect calls fetchEmployees unconditionally. -/
def employeesPageMount (_token : TokenStore) : MountResult :=
  { redirectedToLanding := false, fetchIssued := true }

/-- Predictions page mount (app/predictions/page.tsx): no token check; the
PredictionsDashboard mount effect calls fetchHighRiskEmployees
unconditionally. -/
def predictionsPageMount (_token : TokenStore) : MountResult :=
  { redirectedToLanding := false, fetchIssued := true }

/-! ## Analytics data model (AnalyticsDashboard.tsx lines 9-65) -/

/-- Per-department statistics row (AnalyticsDashboard DepartmentStats). -/
structure DepartmentStats where
  department : String
  total_employees : Nat
  employees_left : Nat
  turnover_rate : ℚ
  avg_satisfaction : ℚ
deriving DecidableEq, Repr

/-- Dashboard analytics payload (AnalyticsDashboard AnalyticsData; the
DashboardStats interface of part_002 declares the same shape). -/
structure AnalyticsData where
  total_employees : Nat
  employees_left : Nat
  turnover_rate : ℚ
  high_risk_employees : Nat
  safe_employees : Nat
  department_stats : List DepartmentStats
deriving DecidableEq, Repr

/-- Risk zone counts (AnalyticsDashboard RiskDistribution). -/
structure RiskDistribution where
  low : Nat
  medium : Nat
  high : Nat
  critical : Nat
deriving DecidableEq, Repr

/-- Turnover by department row. -/
structure TurnoverByDepartment where
  department : String
  turnover_rate : ℚ
  employee_count : Nat
deriving DecidableEq, Repr

/-- Turnover by salary-level row. -/
structure TurnoverBySalary where
  salary_level : String
  turnover_rate : ℚ
  employee_count : Nat
deriving DecidableEq, Repr

/-- Satisfaction distribution row. -/
structure SatisfactionDistribution where
  satisfaction_range : String
  employee_count : Nat
  turnover_rate : ℚ
deriving DecidableEq, Repr

/-- Project count analysis row. -/
structure ProjectCountAnalysis where
  project_count : Nat
  employee_count : Nat
  turnover_rate : ℚ
  avg_satisfaction : ℚ
deriving DecidableEq, Repr

/-- Clustering analysis row. -/
structure ClusteringAnalysis where
  cluster_id : Nat
  cluster_name : String
  employee_count : Nat
  avg_satisfaction : ℚ
  avg_evaluation : ℚ
  turnover_rate : ℚ
deriving DecidableEq, Repr

/-! ### The fixed demo datasets installed by the AnalyticsDashboard catch block
(AnalyticsDashboard.tsx lines 113-272), transcribed literally. -/

/-- Demo dashboard analytics (catch block, lines 116-194). -/
def demoAnalyticsData : AnalyticsData :=
  { total_employees := 14999
    employees_left := 3571
    turnover_rate := 0.238
    high_risk_employees := 1250
    safe_employees := 8500
    department_stats :=
      [ { department := "sales", total_employees := 4140, employees_left := 1012,
          turnover_rate := 0.244, avg_satisfaction := 0.612 },
        { department := "technical", total_employees := 2720, employees_left := 512,
          turnover_rate := 0.188, avg_satisfaction := 0.678 },
        { department := "support", total_employees := 2229, employees_left := 355,
          turnover_rate := 0.159, avg_satisfaction := 0.698 },
        { department := "IT", total_employees := 1227, employees_left := 162,
          turnover_rate := 0.132, avg_satisfaction := 0.721 },
        { department := "product_mng", total_employees := 902, employees_left := 198,
          turnover_rate := 0.219, avg_satisfaction := 0.645 },
        { department := "marketing", total_employees := 858, employees_left := 183,
          turnover_rate := 0.213, avg_satisfaction := 0.652 },
        { department := "RandD", total_employees := 787, employees_left := 89,
          turnover_rate := 0.113, avg_satisfaction := 0.734 },
        { department := "accounting", total_employees := 767, employees_left := 134,
          turnover_rate := 0.175, avg_satisfaction := 0.689 },
        { department := "hr", total_employees := 739, employees_left := 123,
          turnover_rate := 0.166, avg_satisfaction := 0.692 },
        { department := "management", total_employees := 630, employees_left := 83,
          turnover_rate := 0.132, avg_satisfaction := 0.721 } ] }

/-- Demo risk distribution (catch block, lines 197-202). -/
def demoRiskDistribution : RiskDistribution :=
  { low := 8500, medium := 3249, high := 2000, critical := 1250 }

/-- Demo turnover by department (catch block, lines 204-215). -/
def demoTurnoverByDept : List TurnoverByDepartment :=
  [ { department := "sales", turnover_rate := 0.244, employee_count := 4140 },
    { department := "technical", turnover_rate := 0.188, employee_count := 2720 },
    { department := "support", turnover_rate := 0.159, employee_count := 2229 },
    { department := "IT", turnover_rate := 0.132, employee_count := 1227 },
    { department := "product_mng", turnover_rate := 0.219, employee_count := 902 },
    { department := "marketing", turnover_rate := 0.213, employee_count := 858 },
    { department := "RandD", turnover_rate := 0.113, employee_count := 787 },
    { department := "accounting", turnover_rate := 0.175, employee_count := 767 },
    { department := "hr", turnover_rate := 0.166, employee_count := 739 },
    { department := "management", turnover_rate := 0.132, employee_count := 630 } ]

/-- Demo turnover by salary (catch block, lines 217-221). -/
def demoTurnoverBySalary : List TurnoverBySalary :=
  [ { salary_level := "low", turnover_rate := 0.267, employee_count := 7316 },
    { salary_level := "medium", turnover_rate := 0.198, employee_count := 6446 },
    { salary_level := "high", turnover_rate := 0.123, employee_count := 1237 } ]

/-- Demo satisfaction distribution (catch block, lines 223-229). -/
def demoSatisfactionDist : List SatisfactionDistribution :=
  [ { satisfaction_range := "0.0-0.2", employee_count := 1249, turnover_rate := 0.456 },
    { satisfaction_range := "0.2-0.4", employee_count := 1874, turnover_rate := 0.389 },
    { satisfaction_range := "0.4-0.6", employee_count := 3749, turnover_rate := 0.234 },
    { satisfaction_range := "0.6-0.8", employee_count := 5624, turnover_rate := 0.156 },
    { satisfaction_range := "0.8-1.0", employee_count := 2503, turnover_rate := 0.089 } ]

/-- Demo project count analysis (catch block, lines 231-237). -/
def demoProjectAnalysis : List ProjectCountAnalysis :=
  [ { project_count := 2, employee_count := 3749, avg_satisfaction := 0.456, turnover_rate := 0.234 },
    { project_count := 3, employee_count := 5624, avg_satisfaction := 0.567, turnover_rate := 0.189 },
    { project_count := 4, employee_count := 3749, avg_satisfaction := 0.678, turnover_rate := 0.145 },
    { project_count := 5, employee_count := 1874, avg_satisfaction := 0.789, turnover_rate := 0.098 },
    { project_count := 6, employee_count := 3, avg_satisfaction := 0.890, turnover_rate := 0.067 } ]

/-- Demo clustering analysis (catch block, lines 239-272). -/
def demoClusteringAnalysis : List ClusteringAnalysis :=
  [ { cluster_id := 1, cluster_name := "High Performers", employee_count := 2503,
      avg_satisfaction := 0.789, avg_evaluation := 0.856, turnover_rate := 0.089 },
    { cluster_id := 2, cluster_name := "Stable Employees", employee_count := 5624,
      avg_satisfaction := 0.567, avg_evaluation := 0.634, turnover_rate := 0.156 },
    { cluster_id := 3, cluster_name := "At Risk", employee_count := 3749,
      avg_satisfaction := 0.456, avg_evaluation := 0.423, turnover_rate := 0.234 },
    { cluster_id := 4, cluster_name := "Critical Risk", employee_count := 3123,
      avg_satisfaction := 0.234, avg_evaluation := 0.312, turnover_rate := 0.456 } ]

/-! ## The Analytics fan-out (claims C2 and C4)

fetchAnalyticsData (AnalyticsDashboard.tsx lines 82-276) issues seven
concurrent fetches through a single Promise.all inside one try/catch:
if every fetch resolves, each resource state is set to its live value;
if any fetch rejects, Promise.all rejects as a whole and the catch block
sets all seven resources to the demo datasets; finally sets loading false. -/

/-- The local state of the AnalyticsDashboard view controller. -/
structure AnalyticsState where
  analyticsData : Option AnalyticsData
  riskDistribution : Option RiskDistribution
  turnoverByDept : List TurnoverByDepartment
  turnoverBySalary : List TurnoverBySalary
  satisfactionDist : List SatisfactionDistribution
  projectAnalysis : List ProjectCountAnalysis
  clusteringAnalysis : List ClusteringAnalysis
  loading : Bool
deriving DecidableEq, Repr

/-- Initial AnalyticsDashboard state (useState initialisers, lines 68-75). -/
def initialAnalyticsState : AnalyticsState :=
  { analyticsData := none, riskDistribution := none, turnoverByDept := [],
    turnoverBySalary := [], satisfactionDist := [], projectAnalysis := [],
    clusteringAnalysis := [], loading := true }

/-- Outcomes of the seven concurrent apiClient calls issued by the fan-out
(lines 95-103).  An `Except Unit` value stands for one settled promise:
ok carries the parsed DTO, error is a rejection (network failure or an
apiClient error for a non-2xx response). -/
structure AnalyticsFetches where
  getDashboardAnalytics : Except Unit AnalyticsData
  getRiskDistribution : Except Unit RiskDistribution
  getTurnoverByDepartment : Except Unit (List TurnoverByDepartment)
  getTurnoverBySalary : Except Unit (List TurnoverBySalary)
  getSatisfactionDistribution : Except Unit (List SatisfactionDistribution)
  getProjectCountAnalysis : Except Unit (List ProjectCountAnalysis)
  getClusteringAnalysis : Except Unit (List ClusteringAnalysis)

/-- Promise.all over the seven fetches: resolves with the tuple of results when
all resolve, rejects when any of them rejects. -/
def promiseAll7 (r : AnalyticsFetches) :
    Except Unit (AnalyticsData × RiskDistribution × List TurnoverByDepartment ×
      List TurnoverBySalary × List SatisfactionDistribution ×
      List ProjectCountAnalysis × List ClusteringAnalysis) := do
  let d ← r.getDashboardAnalytics
  let rk ← r.getRiskDistribution
  let td ← r.getTurnoverByDepartment
  let ts ← r.getTurnoverBySalary
  let sd ← r.getSatisfactionDistribution
  let pa ← r.getProjectCountAnalysis
  let ca ← r.getClusteringAnalysis
  pure (d, rk, td, ts, sd, pa, ca)

/-- The catch block of fetchAnalyticsData (lines 113-272): sets all seven
resources to the demo datasets; the finally block clears loading. -/
def applyAnalyticsDemoData (s : AnalyticsState) : AnalyticsState :=
  { s with analyticsData := some demoAnalyticsData,
           riskDistribution := some demoRiskDistribution,
           turnoverByDept := demoTurnoverByDept,
           turnoverBySalary := demoTurnoverBySalary,
           satisfactionDist := demoSatisfactionDist,
           projectAnalysis := demoProjectAnalysis,
           clusteringAnalysis := demoClusteringAnalysis,
           loading := false }

/-- fetchAnalyticsData (lines 82-276): awaits the Promise.all; on resolution
stores each live result; on rejection runs the catch block; the finally block
sets loading to false on both paths. -/
def fetchAnalyticsData (s : AnalyticsState) (r : AnalyticsFetches) : AnalyticsState :=
  match promiseAll7 r with
  | .ok (d, rk, td, ts, sd, pa, ca) =>
      { s with analyticsData := some d, riskDistribution := some rk,
               turnoverByDept := td, turnoverBySalary := ts,
               satisfactionDist := sd, projectAnalysis := pa,
               clusteringAnalysis := ca, loading := false }
  | .error _ => applyAnalyticsDemoData s

/-! ## Dashboard home stats fetch (part_002 lines 46-56, claim C4) -/

/-- part_002 declares DashboardStats with exactly the fields of AnalyticsData. -/
abbrev DashboardStats := AnalyticsData

/-- The dashboard home fetch state: dashboardStats and loading. -/
structure DashboardHomeState where
  dashboardStats : Option DashboardStats
  loading : Bool
deriving DecidableEq, Repr

/-- Initial dashboard home state (part_002 lines 30-31). -/
def initialDashboardHomeState : DashboardHomeState :=
  { dashboardStats := none, loading := true }

/-- fetchDashboardStats (part_002 lines 46-56): on success stores the data;
the catch block only logs the error and installs no fallback, so the previous
data (initially absent) is retained; finally sets loading false. -/
def fetchDashboardStats (s : DashboardHomeState) (r : Except Unit DashboardStats) :
    DashboardHomeState :=
  match r with
  | .ok d => { dashboardStats := some d, loading := false }
  | .error _ => { s with loading := false }

/-! ## Employees dashboard (EmployeesDashboard.tsx, claims C3, C4, C6)

The employees view bypasses the apiClient wrapper and issues raw fetch calls.
A raw fetch resolves for any HTTP response, whatever its status; it rejects
only on network failure.  The handlers below therefore take an
`Except Unit Response` where ok carries the response (status plus parsed JSON
body) and error is a network failure or JSON parse failure. -/

/-- Employee record (EmployeesDashboard.tsx lines 9-23).  The trailing fields
are optional in the source interface. -/
structure Employee where
  employee_id : String
  satisfaction_level : ℚ
  last_evaluation : ℚ
  number_project : Nat
  average_monthly_hours : Nat
  time_spend_company : Nat
  work_accident : Nat
  promotion_last_5years : Nat
  department : String
  salary : String
  left : Option Nat := none
  created_at : Option String := none
  updated_at : Option String := none
deriving DecidableEq, Repr

/-- The two-employee demo dataset installed by the fetchEmployees catch block
(lines 88-119), transcribed literally. -/
def demoEmployees : List Employee :=
  [ { employee_id := "EMP001", satisfaction_level := 0.38, last_evaluation := 0.53,
      number_project := 2, average_monthly_hours := 157, time_spend_company := 3,
      work_accident := 0, promotion_last_5years := 0, department := "sales",
      salary := "low", left := some 1,
      created_at := some "2024-01-01T00:00:00Z", updated_at := some "2024-01-01T00:00:00Z" },
    { employee_id := "EMP002", satisfaction_level := 0.80, last_evaluation := 0.86,
      number_project := 5, average_monthly_hours := 262, time_spend_company := 6,
      work_accident := 0, promotion_last_5years := 0, department := "technical",
      salary := "medium", left := some 0,
      created_at := some "2024-01-02T00:00:00Z", updated_at := some "2024-01-02T00:00:00Z" } ]

/-- An HTTP response to the employees list call: status code and the employees
field of the parsed JSON body (absent when the body is an error object). -/
structure EmployeesResponse where
  status : Nat
  employees : Option (List Employee)
deriving DecidableEq, Repr

/-- The terminal state of one fetchEmployees run: the token store afterwards,
the employees list, and the loading flag. -/
structure EmployeesFetchResult where
  store : TokenStore
  employees : List Employee
  loading : Bool
deriving DecidableEq, Repr

/-- fetchEmployees (lines 75-123): issues a raw fetch with the bearer header
read from the store; any HTTP response resolves (no status check), and the
employees field of the body, defaulted to the empty list, becomes the state;
only a rejected fetch reaches the catch block, which installs the demo
dataset.  No path writes or clears the token store. -/
def fetchEmployees (store : TokenStore) (r : Except Unit EmployeesResponse) :
    EmployeesFetchResult :=
  match r with
  | .ok resp => { store := store, employees := resp.employees.getD [], loading := false }
  | .error _ => { store := store, employees := demoEmployees, loading := false }

/-- The add-employee form state (EmployeesDashboard.tsx lines 59-69). -/
structure EmployeeFormData where
  satisfaction_level : ℚ
  last_evaluation : ℚ
  number_project : Nat
  average_monthly_hours : Nat
  time_spend_company : Nat
  work_accident : Nat
  promotion_last_5years : Nat
  department : String
  salary : String
deriving DecidableEq, Repr

/-- The initial form values (lines 59-69). -/
def initialFormData : EmployeeFormData :=
  { satisfaction_level := 0.5, last_evaluation := 0.5, number_project := 2,
    average_monthly_hours := 160, time_spend_company := 2, work_accident := 0,
    promotion_last_5years := 0, department := "sales", salary := "low" }

/-- A POST request as built by createEmployee. -/
structure CreateEmployeeRequest where
  url : String
  method : String
  body : Employee
deriving DecidableEq, Repr

/-- createEmployee (lines 200-240): invoked by the Create Employee button's
onClick handler; it unconditionally issues the POST with the spread form data
plus a generated employee_id and left set to 0.  No client-side validation
precedes the call (the satisfaction input's min/max attributes, lines 617-624,
do not gate this handler); `none` would model a submission blocked before any
HTTP call, which never occurs. -/
def createEmployee (formData : EmployeeFormData) (now : Nat) :
    Option CreateEmployeeRequest :=
  some { url := "http://localhost:8000/api/v1/employees/"
         method := "POST"
         body := { employee_id := "EMP" ++ toString now
                   satisfaction_level := formData.satisfaction_level
                   last_evaluation := formData.last_evaluation
                   number_project := formData.number_project
                   average_monthly_hours := formData.average_monthly_hours
                   time_spend_company := formData.time_spend_company
                   work_accident := formData.work_accident
                   promotion_last_5years := formData.promotion_last_5years
                   department := formData.department
                   salary := formData.salary
                   left := some 0 } }

/-! ## Predictions dashboard (PredictionsDashboard.tsx, claims C3, C9, C10) -/

/-- Prediction record (PredictionsDashboard.tsx lines 23-32). -/
structure Prediction where
  id : Nat
  employee_id : String
  turnover_probability : ℚ
  risk_zone : String
  model_used : String
  prediction_confidence : String
  created_at : String
  created_by : Nat
deriving DecidableEq, Repr

/-- The demo prediction history installed by the fetchEmployeePredictions
catch block (lines 141-162). -/
def demoPredictions (empId : String) : List Prediction :=
  [ { id := 1, employee_id := empId, turnover_probability := 0.75,
      risk_zone := "High Risk Zone (Red)", model_used := "random_forest",
      prediction_confidence := "High", created_at := "2024-01-01T00:00:00Z",
      created_by := 1 },
    { id := 2, employee_id := empId, turnover_probability := 0.68,
      risk_zone := "Medium Risk Zone (Orange)", model_used := "random_forest",
      prediction_confidence := "Medium", created_at := "2024-01-02T00:00:00Z",
      created_by := 1 } ]

/-- An HTTP response to the employee-predictions call: status code and the
parsed JSON body, used directly as the predictions list. -/
structure PredictionsResponse where
  status : Nat
  body : List Prediction
deriving DecidableEq, Repr

/-- The terminal state of one fetchEmployeePredictions run. -/
structure PredictionsFetchResult where
  store : TokenStore
  predictions : List Prediction
  loading : Bool
deriving DecidableEq, Repr

/-- fetchEmployeePredictions (lines 128-166): raw fetch with the bearer header;
any HTTP response resolves and its parsed body becomes the predictions state;
a rejected fetch reaches the catch block, which installs the demo history;
finally clears loading.  No path writes or clears the token store. -/
def fetchEmployeePredictions (store : TokenStore) (empId : String)
    (r : Except Unit PredictionsResponse) : PredictionsFetchResult :=
  match r with
  | .ok resp => { store := store, predictions := resp.body, loading := false }
  | .error _ => { store := store, predictions := demoPredictions empId, loading := false }

/-- High-risk employee record (PredictionsDashboard.tsx lines 34-43). -/
structure HighRiskEmployee where
  employee_id : String
  department : String
  turnover_probability : ℚ
  risk_zone : String
  last_evaluation : ℚ
  satisfaction_level : ℚ
  time_spend_company : Nat
deriving DecidableEq, Repr

/-- The demo dataset installed by the fetchHighRiskEmployees catch block
(lines 78-97). -/
def demoHighRiskEmployees : List HighRiskEmployee :=
  [ { employee_id := "EMP001", department := "sales", turnover_probability := 0.85,
      risk_zone := "high", last_evaluation := 0.45, satisfaction_level := 0.25,
      time_spend_company := 2 },
    { employee_id := "EMP003", department := "support", turnover_probability := 0.78,
      risk_zone := "high", last_evaluation := 0.88, satisfaction_level := 0.11,
      time_spend_company := 4 } ]

/-- fetchHighRiskEmployees (lines 71-99): the apiClient call resolving yields
the live list; a rejection installs the demo dataset. -/
def fetchHighRiskEmployees (r : Except Unit (List HighRiskEmployee)) :
    List HighRiskEmployee :=
  match r with
  | .ok data => data
  | .error _ => demoHighRiskEmployees

/-- The inline risk-zone computation of the predictTurnover catch block
(lines 185-187): thresholds 0.2, 0.6, 0.9 over the mock probability. -/
def mockRiskZone (mockProbability : ℚ) : String :=
  if mockProbability < 0.2 then "low"
  else if mockProbability < 0.6 then "medium"
  else if mockProbability < 0.9 then "high"
  else "critical"

/-- The demo prediction result built by the predictTurnover catch block
(lines 184-200): both the probability field and the risk zone field are
derived from the same Math.random() draw, supplied here as mockProbability. -/
def demoPredictionResult (mockProbability : ℚ) (empId : String) (nowIso : String) :
    Prediction :=
  { id := 1
    employee_id := empId
    turnover_probability := mockProbability
    risk_zone := mockRiskZone mockProbability
    model_used := "random_forest"
    prediction_confidence := "High"
    created_at := nowIso
    created_by := 1 }

/-! ## Login and logout paths (claims C3, C5, C7) -/

/-- An HTTP response to the landing-page login call: the ok flag (status in
the 2xx range) and the access_token field of the parsed body. -/
structure LandingLoginResponse where
  ok : Bool
  access_token : String
deriving DecidableEq, Repr

/-- LandingPage.handleLogin (LandingPage.tsx lines 11-36): raw fetch of the
login endpoint; when the response is ok the returned access_token is written
to the token store and the browser navigates to the dashboard; a non-ok
response or a network failure only shows an alert and leaves the store
unchanged. -/
def landingHandleLogin (store : TokenStore) (r : Except Unit LandingLoginResponse) :
    TokenStore :=
  match r with
  | .ok resp => if resp.ok then some resp.access_token else store
  | .error _ => store

/-- LoginPage.handleLogin (app/login/page.tsx lines 15-35).  The success path
awaits apiClient.login, whose token-storing side effect is modelled from the
spec: lib/api.ts is absent from src/, and the spec states that successful
login writes the returned token via setToken; the ok value carries that
returned token.  The catch path is taken verbatim from the source: on a
failed login it writes the fixed string demo-token to the store
(localStorage.setItem at line 28) before redirecting. -/
def loginPageHandleLogin (_store : TokenStore) (r : Except Unit String) : TokenStore :=
  match r with
  | .ok returnedToken => some returnedToken
  | .error _ => some "demo-token"

/-- localStorage.removeItem on the token key: clears the store; removing an
absent key is a no-op, so the result is always the empty store. -/
def removeToken (_store : TokenStore) : TokenStore := none

/-- Modelled from the spec: apiClient.logout lives in lib/api.ts, which is
absent from src/.  Per the spec, a successful logout calls clearToken; a
rejected logout call surfaces the failure without having cleared the store. -/
def apiClientLogout (_store : TokenStore) (serverOk : Bool) : Except Unit TokenStore :=
  if serverOk then .ok none else .error ()

/-- Navigation.handleLogout (PredictionsDashboard.tsx file, lines 680-693):
try awaits apiClient.logout then removes the token; the catch block also
removes the token (forced logout) and rethrows nothing, so the handler never
throws and both paths end with the store cleared. -/
def handleLogout (store : TokenStore) (serverOk : Bool) : TokenStore :=
  match apiClientLogout store serverOk with
  | .ok s => removeToken s
  | .error _ => removeToken store

/-- Modelled from the spec: the HTTP Client wrapper (lib/api.ts, absent from
src/) is responsible, per the spec, for clearing the Token Store on a 401
response before surfacing the failure; other statuses leave the store
untouched. -/
def apiClientStoreAfterResponse (store : TokenStore) (status : Nat) : TokenStore :=
  if status == 401 then none else store

/-! ## Percentage formatting (claim C8)

Every rate or probability rendering in the views is the inline JSX expression
value times 100, toFixed(1), followed by a percent sign (part_002 lines
122-125, AnalyticsDashboard lines 370-374 and elsewhere). -/

/-- JavaScript Number.prototype.toFixed with one fraction digit, for a
nonnegative argument: the integer n closest to 10x, ties picking the larger n
(so: floor of 10x + 1/2), printed as integer part, dot, fraction digit. -/
def jsToFixed1 (x : ℚ) : String :=
  let n : ℤ := ⌊x * 10 + 1 / 2⌋
  toString (n.toNat / 10) ++ "." ++ toString (n.toNat % 10)

/-- The rendered percentage text for a rate value v: the JSX expression
(v * 100).toFixed(1) immediately followed by the percent sign. -/
def renderPercent1 (v : ℚ) : String := jsToFixed1 (v * 100) ++ "%"

/-- The formatting law as the spec words it: round(v * 100, 1) followed by a
percent sign.  Rounding to one decimal is rounding 10 times the value to the
nearest integer (Mathlib round, which rounds half up); the rounded value
m / 10 is printed as integer part, dot, fraction digit. -/
def specPercentString (v : ℚ) : String :=
  let m : ℤ := round (v * 100 * 10)
  toString (m.toNat / 10) ++ "." ++ toString (m.toNat % 10) ++ "%"

/-! ## High risk table rendering (claim C9) -/

/-- The observable shape of a HighRiskTable render (part_006): how many data
rows the table body holds, whether the dedicated No High Risk Employees empty
state is shown, and whether any error state is shown.  The component has no
error branch at all, so the error state is never rendered. -/
structure HighRiskTableView where
  rowCount : Nat
  showsNoHighRiskEmptyState : Bool
  showsErrorState : Bool
deriving DecidableEq, Repr

/-- HighRiskTable (part_006 lines 10-123): maps the data to table rows and,
exactly when data.length is zero (lines 111-119), additionally renders the
No High Risk Employees empty-state block; no error UI exists in the
component. -/
def renderHighRiskTable (data : List HighRiskEmployee) : HighRiskTableView :=
  { rowCount := data.length
    showsNoHighRiskEmptyState := data.length == 0
    showsErrorState := false }

/-! ## Spec-side definition for claim C10 -/

/-- The risk-zone thresholds exactly as claim C10 words them: low for
probability below 0.2, medium below 0.6, high below 0.9, and critical
otherwise.  Written from the claim text, to be compared with the
source-derived mockRiskZone. -/
def claimRiskZoneOfProbability (p : ℚ) : String :=
  if p < 0.2 then "low"
  else if p < 0.6 then "medium"
  else if p < 0.9 then "high"
  else "critical"

/-! ## Concrete fetch outcomes used by the claim settlements -/

/-- A live dashboard-analytics payload used as a concrete successful fetch
result, distinguishable from the demo dataset. -/
def liveAnalyticsSample : AnalyticsData :=
  { total_employees := 1, employees_left := 0, turnover_rate := 0,
    high_risk_employees := 0, safe_employees := 1, department_stats := [] }

/-- A concrete fan-out outcome in which the dashboard-analytics fetch succeeds
with the live sample, the risk-distribution fetch fails, and the other five
fetches succeed. -/
def mixedOutcomeFetches : AnalyticsFetches :=
  { getDashboardAnalytics := .ok liveAnalyticsSample
    getRiskDistribution := .error ()
    getTurnoverByDepartment := .ok []
    getTurnoverBySalary := .ok []
    getSatisfactionDistribution := .ok []
    getProjectCountAnalysis := .ok []
    getClusteringAnalysis := .ok [] }

/-- The fan-out outcome in which every fetch rejects (the API unreachable). -/
def allErrorFetches : AnalyticsFetches :=
  { getDashboardAnalytics := .error ()
    getRiskDistribution := .error ()
    getTurnoverByDepartment := .error ()
    getTurnoverBySalary := .error ()
    getSatisfactionDistribution := .error ()
    getProjectCountAnalysis := .error ()
    getClusteringAnalysis := .error () }

/-! ## Claim C1 -/

/-- Claim C1, counterexample: mounting the analytics view with an empty token
store performs no redirect to the landing route and does issue its data
fetch, refuting the claim that every protected view redirects without
fetching when no token is stored. -/
theorem C1_counterexample :
    ¬((analyticsPageMount none).redirectedToLanding = true ∧
      (analyticsPageMount none).fetchIssued = false) := by
  decide

/-- Claim C1 (amended): mounting the dashboard home or the admin view with no
stored token redirects to the landing route and issues no data fetch, while
the analytics, employees and predictions views perform no token check on
mount: they issue their data fetch and never redirect, token or not. -/
theorem C1_guarded_views :
    dashboardMount none = { redirectedToLanding := true, fetchIssued := false } ∧
    adminPageMount none = { redirectedToLanding := true, fetchIssued := false } ∧
    (∀ t : TokenStore,
      analyticsPageMount t = { redirectedToLanding := false, fetchIssued := true }) ∧
    (∀ t : TokenStore,
      employeesPageMount t = { redirectedToLanding := false, fetchIssued := true }) ∧
    (∀ t : TokenStore,
      predictionsPageMount t = { redirectedToLanding := false, fetchIssued := true }) :=
  ⟨rfl, rfl, fun _ => rfl, fun _ => rfl, fun _ => rfl⟩

/-! ## Claim C2 -/

/-- Claim C2, counterexample: in the fan-out outcome where the dashboard
analytics fetch succeeded with a live payload and the risk-distribution
fetch failed, the successful resource does not keep its live data: it is
replaced by the demo dataset, refuting the claim that only the failed
resources fall back. -/
theorem C2_counterexample :
    mixedOutcomeFetches.getDashboardAnalytics = .ok liveAnalyticsSample ∧
    (fetchAnalyticsData initialAnalyticsState mixedOutcomeFetches).analyticsData ≠
      some liveAnalyticsSample ∧
    (fetchAnalyticsData initialAnalyticsState mixedOutcomeFetches).analyticsData =
      some demoAnalyticsData := by
  refine ⟨rfl, ?_, rfl⟩
  decide

/-- Claim C2 (amended): the Analytics fan-out of seven concurrent fetches is
all-or-nothing: if any fetch rejects, the single Promise.all rejects and the
catch block replaces all seven resources with their demo datasets, discarding
any live results; only when every fetch resolves does each resource receive
its live data.  Loading is false in both terminal states. -/
theorem C2_fanout_all_or_nothing (s : AnalyticsState) (r : AnalyticsFetches) :
    (∀ e, promiseAll7 r = .error e →
      fetchAnalyticsData s r = applyAnalyticsDemoData s) ∧
    (∀ d rk td ts sd pa ca,
      promiseAll7 r = .ok (d, rk, td, ts, sd, pa, ca) →
      fetchAnalyticsData s r =
        { s with analyticsData := some d, riskDistribution := some rk,
                 turnoverByDept := td, turnoverBySalary := ts,
                 satisfactionDist := sd, projectAnalysis := pa,
                 clusteringAnalysis := ca, loading := false }) := by
  constructor
  · intro e h
    unfold fetchAnalyticsData
    rw [h]
  · intro d rk td ts sd pa ca h
    unfold fetchAnalyticsData
    rw [h]

/-- Witness for the amended claim C2 at a concrete outcome: with every fetch
rejected the fan-out lands in the all-demo state. -/
theorem C2_fanout_witness :
    fetchAnalyticsData initialAnalyticsState allErrorFetches =
      applyAnalyticsDemoData initialAnalyticsState :=
  (C2_fanout_all_or_nothing initialAnalyticsState allErrorFetches).1 () rfl

/-! ## Claim C3 -/

/-- Claim C3, counterexample: the employees fetch receiving a 401 response
leaves the stored token in place, so the Token Store is not empty immediately
afterwards, refuting the claim for this operation. -/
theorem C3_counterexample :
    (fetchEmployees (some "tok401") (.ok { status := 401, employees := none })).store =
      some "tok401" ∧
    (some "tok401" : TokenStore) ≠ none := by
  exact ⟨rfl, by decide⟩

/-- Claim C3 (amended): the raw-fetch operations of the employees and
predictions views never mutate the Token Store, whatever the response status,
so a 401 response leaves the stored token in place there; only the HTTP
Client wrapper (modelled from the spec, since lib/api.ts is absent from src/)
clears the store on a 401. -/
theorem C3_store_mutation :
    (∀ (store : TokenStore) (r : Except Unit EmployeesResponse),
      (fetchEmployees store r).store = store) ∧
    (∀ (store : TokenStore) (empId : String) (r : Except Unit PredictionsResponse),
      (fetchEmployeePredictions store empId r).store = store) ∧
    (∀ store : TokenStore, apiClientStoreAfterResponse store 401 = none) := by
  refine ⟨fun store r => ?_, fun store empId r => ?_, fun store => rfl⟩
  · cases r <;> rfl
  · cases r <;> rfl

/-! ## Claim C4 -/

/-- Claim C4, counterexample: a non-2xx API error (a 500 response with an
error body) on the employees fetch does not reject the raw fetch, so the
catch block never runs: the terminal employees state is the empty list, not
the predefined fallback dataset, refuting the claim for non-401 API
errors. -/
theorem C4_counterexample :
    (fetchEmployees (some "tok500") (.ok { status := 500, employees := none })).employees =
      [] ∧
    (fetchEmployees (some "tok500") (.ok { status := 500, employees := none })).loading =
      false ∧
    ([] : List Employee) ≠ demoEmployees := by
  exact ⟨rfl, rfl, by decide⟩

/-- Claim C4 (amended): a fetch whose promise rejects lands in the fallback
state with loading false: the employees fetch installs its two-employee demo
dataset, and a rejected dashboard-analytics fetch makes the Analytics view
fall back entirely, its total_employees equal to 14999 with loading false.
However, a resolved non-2xx response on the raw employees fetch yields the
body's employees field defaulted to the empty list (no fallback), and the
dashboard home stats fetch installs no fallback at all on failure, only
clearing loading. -/
theorem C4_fallback_states :
    (∀ store : TokenStore, fetchEmployees store (.error ()) =
      { store := store, employees := demoEmployees, loading := false }) ∧
    (∀ (store : TokenStore) (resp : EmployeesResponse), fetchEmployees store (.ok resp) =
      { store := store, employees := resp.employees.getD [], loading := false }) ∧
    (∀ (s : AnalyticsState) (r : AnalyticsFetches),
      r.getDashboardAnalytics = .error () →
      fetchAnalyticsData s r = applyAnalyticsDemoData s) ∧
    (∀ s : AnalyticsState, (applyAnalyticsDemoData s).analyticsData =
      some demoAnalyticsData ∧ (applyAnalyticsDemoData s).loading = false) ∧
    demoAnalyticsData.total_employees = 14999 ∧
    (∀ s : DashboardHomeState,
      fetchDashboardStats s (.error ()) = { s with loading := false }) := by
  refine ⟨fun store => rfl, fun store resp => rfl, ?_, fun s => ⟨rfl, rfl⟩, rfl,
    fun s => rfl⟩
  intro s r h
  unfold fetchAnalyticsData promiseAll7
  rw [h]
  rfl

/-- Witness for the amended claim C4 at a concrete outcome: the
dashboard-analytics fetch in allErrorFetches is rejected, and applying the
fan-out from the initial state gives the demo analytics data with
total_employees 14999 and loading false. -/
theorem C4_fallback_witness :
    fetchAnalyticsData initialAnalyticsState allErrorFetches =
      applyAnalyticsDemoData initialAnalyticsState ∧
    (applyAnalyticsDemoData initialAnalyticsState).analyticsData =
      some demoAnalyticsData ∧
    demoAnalyticsData.total_employees = 14999 :=
  ⟨C4_fallback_states.2.2.1 initialAnalyticsState allErrorFetches rfl,
   (C4_fallback_states.2.2.2.1 initialAnalyticsState).1,
   C4_fallback_states.2.2.2.2.1⟩

/-! ## Claim C5 -/

/-- Claim C5, counterexample: a failed login via the login page does not leave
the Token Store unchanged: the catch block writes the fixed demo token, so an
empty store becomes a populated one, refuting the stated mutation rule. -/
theorem C5_counterexample :
    loginPageHandleLogin none (.error ()) = some "demo-token" ∧
    loginPageHandleLogin none (.error ()) ≠ none := by
  exact ⟨rfl, by decide⟩

/-- Claim C5 (amended): the Token Store mutators are: a successful login
writes the returned token (both login paths); logout clears it on either
server outcome; the raw-fetch view operations never touch it; a failed
landing-page login leaves it unchanged; but the login page failure path also
writes the fixed demo token, so a failed login there does mutate the
store. -/
theorem C5_store_mutators :
    (∀ (store : TokenStore) (t : String),
      landingHandleLogin store (.ok { ok := true, access_token := t }) = some t) ∧
    (∀ (store : TokenStore) (t : String),
      landingHandleLogin store (.ok { ok := false, access_token := t }) = store) ∧
    (∀ store : TokenStore, landingHandleLogin store (.error ()) = store) ∧
    (∀ (store : TokenStore) (t : String), loginPageHandleLogin store (.ok t) = some t) ∧
    (∀ store : TokenStore, loginPageHandleLogin store (.error ()) = some "demo-token") ∧
    (∀ (store : TokenStore) (serverOk : Bool), handleLogout store serverOk = none) ∧
    (∀ (store : TokenStore) (r : Except Unit EmployeesResponse),
      (fetchEmployees store r).store = store) ∧
    (∀ (store : TokenStore) (empId : String) (r : Except Unit PredictionsResponse),
      (fetchEmployeePredictions store empId r).store = store) := by
  refine ⟨fun store t => rfl, fun store t => rfl, fun store => rfl, fun store t => rfl,
    fun store => rfl, fun store serverOk => ?_, fun store r => ?_,
    fun store empId r => ?_⟩
  · cases serverOk <;> rfl
  · cases r <;> rfl
  · cases r <;> rfl

/-! ## Claim C6 -/

/-- Claim C6, counterexample: submitting the add-employee form with
satisfaction_level 1.5 is not rejected before the HTTP call: createEmployee
issues the POST, and its body carries satisfaction_level 1.5. -/
theorem C6_counterexample :
    createEmployee { initialFormData with satisfaction_level := 1.5 } 0 ≠ none ∧
    (createEmployee { initialFormData with satisfaction_level := 1.5 } 0).map
      (fun q => q.body.satisfaction_level) = some 1.5 := by
  refine ⟨?_, rfl⟩
  simp [createEmployee]

/-- Claim C6 (amended): createEmployee performs no client-side validation:
for every form state, including out-of-range satisfaction levels, it issues
the POST request, whose body carries the form's satisfaction_level verbatim;
the 0 to 1 range appears only as non-gating min and max attributes on the
form input. -/
theorem C6_no_validation (formData : EmployeeFormData) (now : Nat) :
    (createEmployee formData now).isSome = true ∧
    (createEmployee formData now).map (fun q => q.body.satisfaction_level) =
      some formData.satisfaction_level ∧
    (createEmployee formData now).map (fun q => q.method) = some "POST" :=
  ⟨rfl, rfl, rfl⟩

/-! ## Claim C7 -/

/-- Claim C7: logout is idempotent and best-effort.  The handler is a total
function (its catch block swallows any failure, so it never throws); with no
stored token it leaves the store empty, and for every starting store and
either server outcome the store is cleared afterwards. -/
theorem C7_logout_idempotent_best_effort :
    (∀ serverOk : Bool, handleLogout none serverOk = none) ∧
    (∀ (store : TokenStore) (serverOk : Bool), handleLogout store serverOk = none) := by
  refine ⟨fun serverOk => ?_, fun store serverOk => ?_⟩
  · cases serverOk <;> rfl
  · cases serverOk <;> rfl

/-! ## Claim C8 -/

/-- Claim C8: for every rate value v in the unit interval, the rendered
percentage text equals the spec's formatting law: v times 100 rounded to one
decimal place followed by a percent sign. -/
theorem C8_percentage_formatting (v : ℚ) (_h0 : 0 ≤ v) (_h1 : v ≤ 1) :
    renderPercent1 v = specPercentString v := by
  simp only [renderPercent1, specPercentString, jsToFixed1, round_eq]

/-- Witness for claim C8 at the demo turnover rate 0.238: the hypotheses hold
and the rendered text is the spec text, concretely the string 23.8 percent. -/
theorem C8_percentage_witness :
    0 ≤ (0.238 : ℚ) ∧ (0.238 : ℚ) ≤ 1 ∧
    renderPercent1 0.238 = specPercentString 0.238 ∧
    renderPercent1 0.238 = "23.8%" :=
  ⟨by norm_num, by norm_num,
   C8_percentage_formatting 0.238 (by norm_num) (by norm_num),
   by simp only [renderPercent1, jsToFixed1]; norm_num; rfl⟩

/-! ## Claim C9 -/

/-- Claim C9: when the high-risk employees fetch succeeds with an empty list,
the High Risk Table renders zero rows with its dedicated No High Risk
Employees empty state and no error state. -/
theorem C9_empty_list_empty_state :
    renderHighRiskTable (fetchHighRiskEmployees (.ok [])) =
      { rowCount := 0, showsNoHighRiskEmptyState := true, showsErrorState := false } :=
  rfl

/-! ## Claim C10 -/

/-- Claim C10: the demo prediction result built by the predictTurnover
fallback path carries the mock probability verbatim, and its risk zone equals
the zone the claim's thresholds assign to that displayed probability: low
below 0.2, medium below 0.6, high below 0.9, critical otherwise. -/
theorem C10_demo_prediction_consistent (p : ℚ) (empId nowIso : String) :
    (demoPredictionResult p empId nowIso).turnover_probability = p ∧
    (demoPredictionResult p empId nowIso).risk_zone =
      claimRiskZoneOfProbability
        ((demoPredictionResult p empId nowIso).turnover_probability) :=
  ⟨rfl, rfl⟩

end ETO
